import Mathlib

/-!
Verification of the Brand Shield detection-and-scan-orchestration engine.

This file gives a shallow embedding of the engine's core Python modules
(`backend/services/detector.py`, `backend/services/scanner.py`,
`backend/scrapers/google_search.py`, `backend/services/scheduler.py`) as
executable Lean definitions, and proves the specification's claims about
them.  Python floats are modelled as rationals, SQL tables as lists of rows,
and the external collaborators (search provider, profile fetcher, clock)
as explicit function parameters.
-/

namespace BrandShield

/-! ## String utilities

Python string primitives (`in`, `lower`, `strip`, `startswith`, `split`)
re-implemented structurally over `List Char` so that every definition
reduces in the kernel. -/

/-- `listContainsSub s pat = true` iff `pat` occurs as a contiguous
subsequence of `s`; this is Python's `pat in s` for strings (the empty
pattern is contained in everything, as in Python). -/
def listContainsSub : List Char → List Char → Bool
  | _, [] => true
  | [], _ :: _ => false
  | c :: rest, p :: ps => (p :: ps).isPrefixOf (c :: rest) || listContainsSub rest (p :: ps)

/-- Python `pat in s` on strings. -/
def containsSub (s pat : String) : Bool :=
  listContainsSub s.data pat.data

/-- Python `str.lower()` (ASCII case folding, as used by the engine's
ASCII configuration data). -/
def lowerStr (s : String) : String :=
  String.mk (s.data.map Char.toLower)

/-- Python `str.strip(c)`: remove every leading and trailing occurrence of
the character `c`. -/
def stripChar (s : String) (c : Char) : String :=
  String.mk (((s.data.dropWhile (· == c)).reverse.dropWhile (· == c)).reverse)

/-- Python `str.strip()`: remove leading and trailing whitespace. -/
def stripWs (s : String) : String :=
  String.mk (((s.data.dropWhile Char.isWhitespace).reverse.dropWhile Char.isWhitespace).reverse)

/-- Python `str.startswith(pat)`. -/
def strStartsWith (s pat : String) : Bool :=
  pat.data.isPrefixOf s.data

/-- Split a string at the first occurrence of a (non-empty) separator:
`some (before, after)`, or `none` when the separator does not occur. -/
def splitFirstList (sep : List Char) : List Char → Option (List Char × List Char)
  | [] => none
  | c :: rest =>
    if sep.isPrefixOf (c :: rest) then some ([], (c :: rest).drop sep.length)
    else
      match splitFirstList sep rest with
      | some (pre, post) => some (c :: pre, post)
      | none => none

/-- Python `" OR ".join`-style joining, parameterised by the separator. -/
def joinWith (sep : String) : List String → String
  | [] => ""
  | [x] => x
  | x :: y :: rest => x ++ sep ++ joinWith sep (y :: rest)

/-! ## `urllib.parse.urlparse`, reduced to the two fields the engine uses

`netloc` is the host part between `//` and the next `/`, `?` or `#`;
`urlPath` is what follows the host, up to `?` or `#`.  A URL with no `//`
has an empty netloc and is all path, as in Python. -/

/-- Drop a leading `scheme:` when the URL contains `://`, keeping the `//`. -/
def dropScheme (url : String) : String :=
  match splitFirstList "://".data url.data with
  | some (_, rest) => String.mk ('/' :: '/' :: rest)
  | none => url

/-- `urlparse(url).netloc`. -/
def netloc (url : String) : String :=
  let u := dropScheme url
  if strStartsWith u "//" then
    String.mk ((u.data.drop 2).takeWhile fun c => c != '/' && c != '?' && c != '#')
  else ""

/-- `urlparse(url).path`. -/
def urlPath (url : String) : String :=
  let u := dropScheme url
  let afterHost :=
    if strStartsWith u "//" then
      (u.data.drop 2).dropWhile fun c => c != '/' && c != '?' && c != '#'
    else u.data
  String.mk (afterHost.takeWhile fun c => c != '?' && c != '#')

/-! ## `difflib.SequenceMatcher` (with `isjunk = None`)

`text_similarity` in `detector.py` is
`SequenceMatcher(None, a.lower(), b.lower()).ratio()`.  The matcher's
`b2j` index drops "popular" elements when `len(b) >= 200` (autojunk);
with `isjunk = None` the junk set is empty, so the junk-extension loops
of `find_longest_match` never fire. -/

/-- Autojunk: an element of `b` is popular when `len(b) >= 200` and it
occurs more than `len(b) // 100 + 1` times. -/
def isPopularElem (b : List Char) (c : Char) : Bool :=
  decide (200 ≤ b.length) && decide (b.length / 100 + 1 < (b.filter (· == c)).length)

/-- The positions of `c` in `b` (ascending), excluding popular elements:
the matcher's `b2j[c]`. -/
def b2j (b : List Char) (c : Char) : List Nat :=
  if isPopularElem b c then []
  else (List.range b.length).filter fun j => b.get? j == some c

/-- Lookup in the `j2len` association list, defaulting to `0`. -/
def j2lenGet (m : List (Nat × Nat)) (k : Nat) : Nat :=
  match m.find? fun p => p.1 == k with
  | some p => p.2
  | none => 0

/-- One row of `find_longest_match`'s dynamic programme: process the
occurrence list `js` of `a[i]` in `b`, building the new `j2len` table and
updating the best block `(besti, bestj, bestsize)`. -/
def flmRow (i : Nat) (js : List Nat) (j2len : List (Nat × Nat))
    (best : Nat × Nat × Nat) : (Nat × Nat × Nat) × List (Nat × Nat) :=
  js.foldl
    (fun (acc : (Nat × Nat × Nat) × List (Nat × Nat)) j =>
      let k := if j = 0 then 1 else j2lenGet j2len (j - 1) + 1
      let best' := if acc.1.2.2 < k then (i + 1 - k, j + 1 - k, k) else acc.1
      (best', (j, k) :: acc.2))
    (best, [])

/-- Extend the best block leftwards over equal characters
(`while besti > alo and bestj > blo and a[besti-1] == b[bestj-1]`). -/
def flmExtendLeft (a b : List Char) (alo blo : Nat) :
    Nat → Nat → Nat → Nat → Nat × Nat × Nat
  | 0, besti, bestj, bestsize => (besti, bestj, bestsize)
  | fuel + 1, besti, bestj, bestsize =>
    if alo < besti && blo < bestj &&
        (a.get? (besti - 1) == b.get? (bestj - 1) && (a.get? (besti - 1)).isSome) then
      flmExtendLeft a b alo blo fuel (besti - 1) (bestj - 1) (bestsize + 1)
    else (besti, bestj, bestsize)

/-- Extend the best block rightwards over equal characters. -/
def flmExtendRight (a b : List Char) (ahi bhi : Nat) (besti bestj : Nat) :
    Nat → Nat → Nat
  | 0, bestsize => bestsize
  | fuel + 1, bestsize =>
    if besti + bestsize < ahi && bestj + bestsize < bhi &&
        (a.get? (besti + bestsize) == b.get? (bestj + bestsize) &&
          (a.get? (besti + bestsize)).isSome) then
      flmExtendRight a b ahi bhi besti bestj fuel (bestsize + 1)
    else bestsize

/-- `SequenceMatcher.find_longest_match(alo, ahi, blo, bhi)` with an empty
junk set: returns `(besti, bestj, bestsize)`. -/
def findLongestMatch (a b : List Char) (alo ahi blo bhi : Nat) : Nat × Nat × Nat :=
  let step := fun (acc : (Nat × Nat × Nat) × List (Nat × Nat)) (i : Nat) =>
    let ci := (a.get? i).getD ' '
    let js := (b2j b ci).filter fun j => decide (blo ≤ j) && decide (j < bhi)
    flmRow i js acc.2 acc.1
  let best := ((List.range' alo (ahi - alo)).foldl step ((alo, blo, 0), [])).1
  let (bi, bj, bs) := flmExtendLeft a b alo blo best.1 best.1 best.2.1 best.2.2
  (bi, bj, flmExtendRight a b ahi bhi bi bj (ahi - bi) bs)

/-- Total size of all matching blocks (`get_matching_blocks`, summed):
recursion splits around the longest match, with fuel bounding the depth
(`a.length + b.length + 1` always suffices, since every recursive call
strictly shrinks the combined interval). -/
def matchTotal (a b : List Char) : Nat → Nat → Nat → Nat → Nat → Nat
  | 0, _, _, _, _ => 0
  | fuel + 1, alo, ahi, blo, bhi =>
    let (i, j, k) := findLongestMatch a b alo ahi blo bhi
    if k = 0 then 0
    else matchTotal a b fuel alo i blo j + k + matchTotal a b fuel (i + k) ahi (j + k) bhi

/-- `SequenceMatcher.ratio()`: `2 * M / (len(a) + len(b))`. -/
def matcherRatio (a b : List Char) : ℚ :=
  let m := matchTotal a b (a.length + b.length + 1) 0 a.length 0 b.length
  if a.length + b.length = 0 then 1
  else 2 * (m : ℚ) / ((a.length + b.length : Nat) : ℚ)

/-- `detector.text_similarity`: similarity ratio of the lowercased strings,
`0.0` when either is empty. -/
def text_similarity (text1 text2 : String) : ℚ :=
  if text1 = "" ∨ text2 = "" then 0
  else matcherRatio (lowerStr text1).data (lowerStr text2).data

/-! ## Data model

The transient records of the pipeline.  Python dicts whose keys are always
populated by the code that builds them become structures; a value that
Python may leave `None`/empty (falsy) is an empty string here. -/

/-- One Candidate Result from the Search Provider
(`{url, title, snippet, platform, query_type, brand}`). -/
structure SearchResult where
  url : String
  title : String
  snippet : String
  platform : String
  query_type : String
  brand : String
deriving DecidableEq, Repr

/-- Profile Data extracted by `web_scraper.extract_profile_data`; the dict
always carries these keys, with falsy values modelled as `""` / `0`. -/
structure ProfileData where
  platform : String
  username : String
  display_name : String
  bio : String
  follower_count : Nat
deriving DecidableEq, Repr

/-- One Brand Profile from `config.BRANDS`.  A key the Python dict omits
(e.g. `product_names` for `@erim`) is the empty list, matching the
`.get(key, [])` lookups in the detector. -/
structure BrandConfig where
  display_name : String
  platform_handles : List (String × String)
  verified_urls : List String
  keywords : List String
  bio_phrases : List String
  product_names : List String
deriving DecidableEq, Repr

/-- The evidence breakdown attached to a Score Result (the five raw
component scores, each rounded to 3 decimals). -/
structure Evidence where
  username_match : ℚ
  bio_similarity : ℚ
  name_match : ℚ
  content_overlap : ℚ
  profile_pic_match : ℚ
deriving DecidableEq, Repr

/-- A Score Result as returned by `detector.score_result`. -/
structure ScoreData where
  confidence : ℚ
  severity : String
  threat_type : String
  evidence : Evidence
deriving DecidableEq, Repr

/-! ## `detector.py` -/

/-- `detector.DEFAULT_WEIGHTS`, kept as an association list because
`score_result` reads it through `dict.get(key, default)`. -/
def DEFAULT_WEIGHTS : List (String × ℚ) :=
  [("profile_pic_match", 0.30), ("bio_similarity", 0.20), ("username_pattern", 0.20),
   ("content_overlap", 0.20), ("name_match", 0.10)]

/-- `detector.SEVERITY_THRESHOLDS` in dict insertion order. -/
def SEVERITY_THRESHOLDS : List (String × ℚ) :=
  [("critical", 0.90), ("high", 0.75), ("medium", 0.50), ("low", 0.0)]

/-- `dict.get(key, default)` on an association list. -/
def wget (w : List (String × ℚ)) (key : String) (d : ℚ) : ℚ :=
  match w.find? fun p => p.1 == key with
  | some p => p.2
  | none => d

/-- `detector.calculate_severity`: the first threshold (in dict order) that
`confidence` reaches; the trailing `return "low"` is the fallback. -/
def calculate_severity (confidence : ℚ) : String :=
  match SEVERITY_THRESHOLDS.find? fun p => decide (p.2 ≤ confidence) with
  | some p => p.1
  | none => "low"

/-- The fixed impersonation-pattern username templates of
`check_username_similarity`. -/
def impersonationPatterns (h : String) : List String :=
  [h ++ "_official", h ++ "official", h ++ "_real",
   "the_real_" ++ h, "thereal" ++ h, h ++ "_uk",
   h ++ "uk", h ++ "_shop", h ++ "shop",
   h ++ "_store", h ++ "2", h ++ "_backup",
   "real_" ++ h, h ++ ".official", "official." ++ h]

/-- `detector.check_username_similarity`. -/
def check_username_similarity (username : String) (brand_handles : List (String × String))
    (brand_key : String) : ℚ :=
  if username = "" then 0
  else
    let username_lower := stripChar (lowerStr username) '@'
    let brand_clean := stripChar (lowerStr brand_key) '@'
    let all_handles := brand_handles.map Prod.snd ++ [brand_clean]
    let max_score := all_handles.foldl
      (fun max_score handle =>
        let handle_lower := lowerStr handle
        if username_lower = handle_lower then max_score
        else
          let m1 := max max_score (text_similarity username_lower handle_lower)
          let m2 :=
            if (impersonationPatterns handle_lower).any
                (fun pat => username_lower == pat || containsSub username_lower pat)
            then max m1 0.85 else m1
          if containsSub username_lower handle_lower && (username_lower != handle_lower)
          then max m2 0.6 else m2)
      0
    min max_score 1

/-- `detector.check_bio_similarity`. -/
def check_bio_similarity (bio_text : String) (brand_config : BrandConfig) : ℚ :=
  if bio_text = "" then 0
  else
    let bio_lower := lowerStr bio_text
    let scores := brand_config.bio_phrases.foldl
      (fun scores phrase =>
        let scores := scores ++ [text_similarity (lowerStr phrase) bio_lower]
        if containsSub bio_lower (lowerStr phrase) then scores ++ [(0.85 : ℚ)] else scores)
      []
    let keyword_hits :=
      (brand_config.keywords.filter fun kw => containsSub bio_lower (lowerStr kw)).length
    let scores :=
      if brand_config.keywords ≠ [] then
        scores ++ [min ((keyword_hits : ℚ) / (max brand_config.keywords.length 1 : Nat)) 1 * 0.7]
      else scores
    -- `max(scores)`; every entry is non-negative, so folding from 0 agrees.
    if scores = [] then 0 else scores.foldl max 0

/-- `detector.check_name_match`. -/
def check_name_match (display_name : String) (brand_config : BrandConfig) : ℚ :=
  if display_name = "" then 0
  else
    let official_name := brand_config.display_name
    if official_name = "" then 0
    else
      let sim := text_similarity display_name official_name
      if stripWs (lowerStr display_name) = stripWs (lowerStr official_name) then 0.95
      else if containsSub (lowerStr display_name) (lowerStr official_name) then max sim 0.8
      else sim

/-- `detector.check_content_overlap`.  Keyword hits count 1, product-name
hits 1.5, over the total number of configured keywords and products. -/
def check_content_overlap (snippet : String) (brand_config : BrandConfig) : ℚ :=
  if snippet = "" then 0
  else
    let snippet_lower := lowerStr snippet
    let total := brand_config.keywords.length + brand_config.product_names.length
    if total = 0 then 0
    else
      let kwHits :=
        (brand_config.keywords.filter fun kw => containsSub snippet_lower (lowerStr kw)).length
      let prodHits :=
        (brand_config.product_names.filter fun p => containsSub snippet_lower (lowerStr p)).length
      let hits : ℚ := (kwHits : ℚ) + 1.5 * (prodHits : ℚ)
      min (hits / ((max total 1 : Nat) : ℚ)) 1

/-- The social platforms that trigger profile enrichment and the
impersonation platform check. -/
def socialPlatforms : List String :=
  ["instagram", "twitter", "tiktok", "youtube", "facebook"]

/-- The counterfeit-intent terms of `classify_threat_type`. -/
def counterfeitSignals : List String :=
  ["buy", "shop", "order", "price", "sale", "discount",
   "free shipping", "cheap", "replica", "dupe"]

/-- `profile_data and profile_data.get("username")`: the Profile Data dict
is present and its username is truthy. -/
def pdHasUsername : Option ProfileData → Bool
  | some pd => pd.username != ""
  | none => false

/-- `detector.classify_threat_type`: threat type in strict priority order
over the lowercased concatenation of snippet and title. -/
def classify_threat_type (result : SearchResult) (profile_data : Option ProfileData) : String :=
  let snippet := lowerStr (result.snippet ++ " " ++ result.title)
  if counterfeitSignals.any (fun s => containsSub snippet s) then "counterfeit"
  else if pdHasUsername profile_data then "impersonation"
  else if decide (result.platform ∈ socialPlatforms) &&
      (["profile", "account", "follow", "official"].any fun s => containsSub snippet s) then
    "impersonation"
  else if ["copy", "stolen", "repost", "credit"].any (fun s => containsSub snippet s) then
    "content_theft"
  else if result.query_type ≠ "" then result.query_type
  else "content_theft"

/-- Python `round(x, 3)` on the engine's rationals: round to the nearest
thousandth (the claims never touch a half-way tie, where Python's float
rounding is banker's). -/
def roundTo3 (x : ℚ) : ℚ :=
  (round (x * 1000) : ℤ) / 1000

/-- The confidence combination of `score_result`, up to but not including
the final round-and-clamp: the weighted sum of the five component scores
followed by the two boost rules (username similarity `> 0.8` lifts
confidence to at least `0.7`; name match `> 0.9` lifts it to at least
`0.65`). -/
def combineConfidence (w : List (String × ℚ))
    (pic_score bio_score username_score content_score name_score : ℚ) : ℚ :=
  let confidence :=
    wget w "profile_pic_match" 0.3 * pic_score +
    wget w "bio_similarity" 0.2 * bio_score +
    wget w "username_pattern" 0.2 * username_score +
    wget w "content_overlap" 0.2 * content_score +
    wget w "name_match" 0.1 * name_score
  let confidence := if 0.8 < username_score then max confidence 0.7 else confidence
  if 0.9 < name_score then max confidence 0.65 else confidence

/-- `detector.score_result`: component scores, weighted confidence with
boosts, round to 3 decimals and cap at 1, then severity and threat type.
`weights or DEFAULT_WEIGHTS` makes an absent or empty weight dict fall
back to the defaults. -/
def score_result (result : SearchResult) (brand_key : String) (brand_config : BrandConfig)
    (profile_data : Option ProfileData) (weights : Option (List (String × ℚ))) : ScoreData :=
  let w := match weights with
    | some l => if l = [] then DEFAULT_WEIGHTS else l
    | none => DEFAULT_WEIGHTS
  let handles := brand_config.platform_handles
  let username := match profile_data with | some pd => pd.username | none => ""
  let username_score := check_username_similarity username handles brand_key
  let bio0 := match profile_data with | some pd => pd.bio | none => ""
  let bio := if bio0 = "" then result.snippet else bio0
  let bio_score := check_bio_similarity bio brand_config
  let dn0 := match profile_data with | some pd => pd.display_name | none => ""
  let display_name := if dn0 = "" then result.title else dn0
  let name_score := check_name_match display_name brand_config
  let content_score := check_content_overlap result.snippet brand_config
  let pic_score : ℚ := 0
  let confidence :=
    min (roundTo3 (combineConfidence w pic_score bio_score username_score content_score name_score)) 1
  { confidence := confidence
    severity := calculate_severity confidence
    threat_type := classify_threat_type result profile_data
    evidence :=
      { username_match := roundTo3 username_score
        bio_similarity := roundTo3 bio_score
        name_match := roundTo3 name_score
        content_overlap := roundTo3 content_score
        profile_pic_match := roundTo3 pic_score } }

/-! ## `scrapers/google_search.py` — the Query Planner -/

/-- One query descriptor (`{"q": ..., "type": ..., "brand": ...}`); the
dict key `type` is spelled `qtype` here. -/
structure QueryInfo where
  q : String
  qtype : String
  brand : String
deriving DecidableEq, Repr

/-- The exclusion clause of `build_search_queries`: one ` -site:domain`
per verified URL with a non-empty domain, then per-platform handle
exclusions for instagram, twitter (plus x.com) and youtube. -/
def buildExclusions (brand_config : BrandConfig) : String :=
  let fromUrls := brand_config.verified_urls.foldl
    (fun acc url =>
      let domain := netloc url
      if domain ≠ "" then acc ++ " -site:" ++ domain else acc)
    ""
  brand_config.platform_handles.foldl
    (fun acc ph =>
      if ph.1 = "instagram" then acc ++ " -site:instagram.com/" ++ ph.2
      else if ph.1 = "twitter" then
        acc ++ " -site:twitter.com/" ++ ph.2 ++ " -site:x.com/" ++ ph.2
      else if ph.1 = "youtube" then acc ++ " -site:youtube.com/" ++ ph.2
      else acc)
    fromUrls

/-- `google_search.build_search_queries`: the five query families, in
emission order.  (`display_name` is always present in `config.BRANDS`,
so the `.get("display_name", brand_key)` default is not taken.) -/
def build_search_queries (brand_key : String) (brand_config : BrandConfig) : List QueryInfo :=
  let display_name := brand_config.display_name
  let exclusions := buildExclusions brand_config
  let q1 : List QueryInfo :=
    [{ q := "\"" ++ display_name ++ "\"" ++ exclusions,
       qtype := "impersonation", brand := brand_key }]
  let q2 : List QueryInfo := brand_config.platform_handles.map fun ph =>
    { q := "\"" ++ ph.2 ++ "\" (" ++ ph.1 ++ " OR profile OR account) -site:" ++
             ph.1 ++ ".com/" ++ ph.2,
      qtype := "impersonation", brand := brand_key }
  let q3 : List QueryInfo := (brand_config.product_names.take 3).map fun product =>
    { q := "\"" ++ product ++ "\" (buy OR shop OR order OR price)" ++ exclusions,
      qtype := "counterfeit", brand := brand_key }
  let q4 : List QueryInfo :=
    [{ q := "\"" ++ display_name ++ "\" OR \"" ++ brand_key ++
              "\" (fake OR scam OR unofficial OR replica)",
       qtype := "content_theft", brand := brand_key }]
  let q5 : List QueryInfo :=
    if brand_config.keywords ≠ [] then
      let kw_string := joinWith " OR "
        ((brand_config.keywords.take 3).map fun k => "\"" ++ k ++ "\"")
      [{ q := "(" ++ kw_string ++ ") (impersonat* OR fake OR counterfeit)" ++ exclusions,
         qtype := "content_theft", brand := brand_key }]
    else []
  q1 ++ q2 ++ q3 ++ q4 ++ q5

/-! ## `services/scanner.py` — the Scan Orchestrator

The SQLite tables become lists of rows; `INSERT` is an append.  The
Search Provider and Profile Fetcher are function parameters (the latter
returning `none` both for a non-profile page and for a caught scrape
exception), and the wall-clock timestamp strings are parameters too. -/

def MIN_THREAT_CONFIDENCE : ℚ := 0.35

def MIN_SUSPECT_CONFIDENCE : ℚ := 0.50

/-- A persisted row of the `threats` table, restricted to the columns the
orchestrator writes (the JSON-encoded evidence is kept structured). -/
structure ThreatRow where
  brand : String
  threat_type : String
  severity : String
  platform : String
  detected_url : String
  infringer_username : String
  confidence : ℚ
  evidence : Evidence
  status : String
  detected_at : String
deriving DecidableEq, Repr

/-- A persisted row of the `suspicious_accounts` table (the formatted
`detection_reasons_json` red-flag strings, a pure logging artefact, are
not modelled). -/
structure SuspectRow where
  brand : String
  platform : String
  username : String
  profile_url : String
  display_name : String
  bio_text : String
  follower_count : Nat
  risk_score : ℚ
  status : String
  detected_at : String
deriving DecidableEq, Repr

/-- The persisted store the per-result loop reads and writes. -/
structure ScanState where
  threats : List ThreatRow
  suspects : List SuspectRow
deriving DecidableEq, Repr

/-- `scanner._url_already_tracked`: the URL appears as some Threat's
`detected_url` or some Suspicious Account's `profile_url` (exact string
match). -/
def url_already_tracked (st : ScanState) (url : String) : Bool :=
  st.threats.any (fun t => t.detected_url == url) ||
  st.suspects.any (fun s => s.profile_url == url)

/-- The non-username path segments skipped by
`scanner._extract_username_from_url`. -/
def usernameSkipList : List String :=
  ["search", "explore", "hashtag", "p", "reel", "watch", "channel", "c"]

/-- `scanner._extract_username_from_url`: first path segment of the URL,
leading `@` removed, unless it is a known non-username segment. -/
def extract_username_from_url (url : String) : String :=
  let path := (((urlPath url).data.dropWhile (· == '/')).reverse.dropWhile (· == '/')).reverse
  let first := path.takeWhile (· != '/')
  if first = [] then ""
  else
    let username := if first.head? = some '@' then first.drop 1 else first
    if String.mk (username.map Char.toLower) ∈ usernameSkipList then ""
    else String.mk username

/-- The `threats` row built by `scanner._create_threat`: the infringer
username is the Profile Data username when truthy, else extracted from
the URL. -/
def mkThreatRow (now brand_key : String) (result : SearchResult) (score_data : ScoreData)
    (profile_data : Option ProfileData) : ThreatRow :=
  let username0 := match profile_data with | some pd => pd.username | none => ""
  let username := if username0 = "" then extract_username_from_url result.url else username0
  { brand := brand_key
    threat_type := score_data.threat_type
    severity := score_data.severity
    platform := result.platform
    detected_url := result.url
    infringer_username := username
    confidence := score_data.confidence
    evidence := score_data.evidence
    status := "new"
    detected_at := now }

/-- The `suspicious_accounts` row built by `scanner._create_suspect`. -/
def mkSuspectRow (now brand_key : String) (result : SearchResult) (score_data : ScoreData)
    (pd : ProfileData) : SuspectRow :=
  { brand := brand_key
    platform := pd.platform
    username := pd.username
    profile_url := result.url
    display_name := pd.display_name
    bio_text := pd.bio
    follower_count := pd.follower_count
    risk_score := score_data.confidence
    status := "suspected"
    detected_at := now }

/-- The events observable in one pass of the per-result loop; used to
state that a deduplicated URL undergoes no enrichment and no scoring. -/
inductive ScanEvent where
  | fetched (url : String)
  | scored (url : String)
  | threatAdded (url : String)
  | suspectAdded (url : String)
deriving DecidableEq, Repr

/-- The Profile Data the loop works with: the fetcher is consulted only
for social-platform URLs (a failed fetch is already `none`). -/
def scanProfile (fetch : String → Option ProfileData) (r : SearchResult) : Option ProfileData :=
  if r.platform ∈ socialPlatforms then fetch r.url else none

/-- The Score Result the loop computes for a candidate. -/
def scanScore (fetch : String → Option ProfileData) (weights : Option (List (String × ℚ)))
    (brand_key : String) (cfg : BrandConfig) (r : SearchResult) : ScoreData :=
  score_result r brand_key cfg (scanProfile fetch r) weights

/-- The confidence of `scanScore` (it does not depend on the clock or on
the persisted state). -/
def scanConf (fetch : String → Option ProfileData) (weights : Option (List (String × ℚ)))
    (brand_key : String) (cfg : BrandConfig) (r : SearchResult) : ℚ :=
  (scanScore fetch weights brand_key cfg r).confidence

/-- One iteration of `run_brand_scan`'s per-result loop: skip a tracked
URL; else enrich (social platforms only), score, persist a Threat when
confidence reaches `MIN_THREAT_CONFIDENCE`, and additionally persist a
Suspicious Account for impersonation at `MIN_SUSPECT_CONFIDENCE` with a
username-carrying Profile Data.  Returns the new store, the event trace,
and the `threats_found` increment. -/
def processResult (fetch : String → Option ProfileData) (weights : Option (List (String × ℚ)))
    (now brand_key : String) (cfg : BrandConfig) (st : ScanState) (r : SearchResult) :
    ScanState × List ScanEvent × Nat :=
  if url_already_tracked st r.url then (st, [], 0)
  else
    let pd? := scanProfile fetch r
    let sd := scanScore fetch weights brand_key cfg r
    let events := (if r.platform ∈ socialPlatforms then [ScanEvent.fetched r.url] else []) ++
      [ScanEvent.scored r.url]
    if MIN_THREAT_CONFIDENCE ≤ sd.confidence then
      let st1 : ScanState := ⟨st.threats ++ [mkThreatRow now brand_key r sd pd?], st.suspects⟩
      match pd? with
      | some pd =>
        if sd.threat_type = "impersonation" ∧ MIN_SUSPECT_CONFIDENCE ≤ sd.confidence ∧
            pd.username ≠ "" then
          (⟨st1.threats, st1.suspects ++ [mkSuspectRow now brand_key r sd pd]⟩,
           events ++ [ScanEvent.threatAdded r.url, ScanEvent.suspectAdded r.url], 1)
        else (st1, events ++ [ScanEvent.threatAdded r.url], 1)
      | none => (st1, events ++ [ScanEvent.threatAdded r.url], 1)
    else (st, events, 0)

/-- The store after one loop iteration. -/
def processState (fetch : String → Option ProfileData) (weights : Option (List (String × ℚ)))
    (now brand_key : String) (cfg : BrandConfig) (st : ScanState) (r : SearchResult) : ScanState :=
  (processResult fetch weights now brand_key cfg st r).1

/-- The store after the whole per-result loop of `run_brand_scan`. -/
def scanFold (fetch : String → Option ProfileData) (weights : Option (List (String × ℚ)))
    (now brand_key : String) (cfg : BrandConfig) (st : ScanState)
    (results : List SearchResult) : ScanState :=
  results.foldl (processState fetch weights now brand_key cfg) st

/-- `scanner.run_brand_scan` after the provider call: processes the
aggregated results and returns the store together with
`(items_scanned, threats_found)`. -/
def run_brand_scan (fetch : String → Option ProfileData) (weights : Option (List (String × ℚ)))
    (now brand_key : String) (cfg : BrandConfig) (st : ScanState)
    (results : List SearchResult) : ScanState × Nat × Nat :=
  let out := results.foldl
    (fun (acc : ScanState × Nat) r =>
      let step := processResult fetch weights now brand_key cfg acc.1 r
      (step.1, acc.2 + step.2.2))
    (st, 0)
  (out.1, results.length, out.2)

/-- The number of persisted Threats whose detected URL is `u`. -/
def countUrl (st : ScanState) (u : String) : Nat :=
  (st.threats.filter fun t => t.detected_url = u).length

/-! ### `run_full_scan` and the Scan Record lifecycle

`scan_history` rows are modelled with the columns `run_full_scan`
writes; the string timestamps and the wall-clock elapsed-seconds
subtraction (`_complete_scan_record`) are outside the pure model.  The
whole per-brand body of `run_brand_scan` — whose own effects live on the
`ScanState` store above — is abstracted as a `String → BrandConfig →
Except String (Nat × Nat)` parameter: an `.error` is an uncaught Python
exception carrying `str(e)`, an `.ok` is the `(items, threats)` pair. -/

/-- A `scan_history` row (status, counters, error message). -/
structure ScanRecordRow where
  scan_type : String
  brand : Option String
  platform : Option String
  status : String
  items_scanned : Nat
  threats_found : Nat
  error_message : Option String
deriving DecidableEq, Repr

/-- Python truthiness of an optional string argument (`None` and `""` are
falsy). -/
def optTruthy : Option String → Bool
  | some s => s != ""
  | none => false

/-- Association-list lookup standing for `brand in BRANDS` /
`BRANDS[brand]`. -/
def lookupBrand (brands : List (String × BrandConfig)) (key : String) : Option BrandConfig :=
  match brands.find? fun p => p.1 == key with
  | some p => some p.2
  | none => none

/-- The brand-filter resolution inside `run_full_scan`'s `try` block: a
truthy filter is looked up as given, then retried with `@` prepended
when it does not already start with `@`; both lookups missing raises
`ValueError(f"Unknown brand: {brand}")`.  No filter (or a falsy one)
selects every configured brand. -/
def resolveBrands (brands : List (String × BrandConfig)) (brand : Option String) :
    Except String (List (String × BrandConfig)) :=
  match brand with
  | some b =>
    if b ≠ "" then
      match lookupBrand brands b with
      | some cfg => Except.ok [(b, cfg)]
      | none =>
        let key := if strStartsWith b "@" then b else "@" ++ b
        match lookupBrand brands key with
        | some cfg => Except.ok [(key, cfg)]
        | none => Except.error ("Unknown brand: " ++ b)
    else Except.ok brands
  | none => Except.ok brands

/-- The per-brand loop of `run_full_scan` with its mutable totals: runs
brands in order, accumulating `(total_items, total_threats)`, and stops
at the first exception, whose message is the third component. -/
def scanLoop (f : String → BrandConfig → Except String (Nat × Nat)) :
    List (String × BrandConfig) → Nat → Nat → Nat × Nat × Option String
  | [], total_items, total_threats => (total_items, total_threats, none)
  | (k, cfg) :: rest, total_items, total_threats =>
    match f k cfg with
    | Except.error e => (total_items, total_threats, some e)
    | Except.ok (items, threats) => scanLoop f rest (total_items + items) (total_threats + threats)

/-- `scanner.run_full_scan`: create the Scan Record in `running` state,
resolve the brand filter and run the per-brand loop inside a catch-all,
then apply the single terminal update (`completed`, or `failed` with the
exception message and the partial counters).  Returns the persisted
record versions in order plus the `(items_scanned, threats_found)` of
the result dict; the function is total — no exception reaches the
caller. -/
def run_full_scan (f : String → BrandConfig → Except String (Nat × Nat))
    (brands : List (String × BrandConfig)) (brand platform : Option String) :
    List ScanRecordRow × Nat × Nat :=
  let scan_type :=
    if optTruthy brand && optTruthy platform then "platform_scan"
    else if optTruthy brand then "brand_scan"
    else "full_scan"
  let rec0 : ScanRecordRow :=
    { scan_type := scan_type, brand := brand, platform := platform, status := "running",
      items_scanned := 0, threats_found := 0, error_message := none }
  match resolveBrands brands brand with
  | Except.error e =>
    ([rec0, { rec0 with status := "failed", error_message := some e }], 0, 0)
  | Except.ok brands_to_scan =>
    let (total_items, total_threats, err) := scanLoop f brands_to_scan 0 0
    ([rec0,
      { rec0 with
          status := if err.isSome then "failed" else "completed"
          items_scanned := total_items
          threats_found := total_threats
          error_message := err }],
     total_items, total_threats)

/-! ## `services/scheduler.py`

The scheduler's observable state is its set of registered job ids and
the module-global `_is_enabled` flag.  `_run_auto_resolve` touches the
`threats` table through the columns it reads and writes; its
`try/except` is modelled by the `queryOk` flag (a failed query leaves
the store untouched and propagates nothing). -/

/-- Scheduler state: the registered job ids and the scanning-enabled
flag. -/
structure SchedulerState where
  jobs : List String
  is_enabled : Bool
deriving DecidableEq, Repr

/-- APScheduler `add_job(..., replace_existing=True)` on the id set. -/
def addJobReplace (jobs : List String) (jobId : String) : List String :=
  if jobId ∈ jobs then jobs else jobs ++ [jobId]

/-- `scheduler.enable_scanning`: set the flag. -/
def enable_scanning (st : SchedulerState) : SchedulerState :=
  { st with is_enabled := true }

/-- `scheduler.disable_scanning`: clear the flag. -/
def disable_scanning (st : SchedulerState) : SchedulerState :=
  { st with is_enabled := false }

/-- The effect of `scheduler._run_scheduled_scan` on the scheduler's own
state.  The source's body is malformed Python — the `return` under
`logger.info("Scheduled scan skipped (disabled)")` is indented under no
block, an `IndentationError` at import time — so this models the branch
structure as written, charitably re-indented: when the flag is
disabled, the callback calls
`_scheduler.add_job(_run_auto_resolve, ..., id="brand_shield_auto_resolve",
replace_existing=True)` before logging and returning; when enabled it
runs the scan, leaving the job set unchanged. -/
def run_scheduled_scan_effect (st : SchedulerState) : SchedulerState :=
  if st.is_enabled then st
  else { st with jobs := addJobReplace st.jobs "brand_shield_auto_resolve" }

/-- A `threats` row as `_run_auto_resolve` sees it: status, detected
timestamp, resolved timestamp.  Timestamps are seconds (the source
compares zero-padded `"%Y-%m-%d %H:%M:%S"` strings, whose lexicographic
order is chronological order). -/
structure SweepThreat where
  status : String
  detected_at : Int
  resolved_at : Option Int
deriving DecidableEq, Repr

/-- `scheduler._run_auto_resolve`: select the Threats with status `new`
detected before `now − 24h` and set each to `resolved` with
`resolved_at = now`; everything else is untouched.  `queryOk = false` is
a store access that raised: the `except` swallows it and the store is
unchanged — the function is total, nothing propagates to the
scheduler. -/
def run_auto_resolve (now : Int) (queryOk : Bool) (db : List SweepThreat) : List SweepThreat :=
  if queryOk then
    let cutoff := now - 24 * 3600
    db.map fun t =>
      if t.status = "new" ∧ t.detected_at < cutoff then
        { t with status := "resolved", resolved_at := some now }
      else t
  else db

/-! ## Severity classification (C2) -/

/-- Triage rank of a severity label (used to state monotonicity). -/
def severityRank : String → Nat
  | "critical" => 3
  | "high" => 2
  | "medium" => 1
  | _ => 0

/-- `calculate_severity` unfolded to the threshold chain in dict order
(the `("low", 0.0)` entry and the trailing fallback both yield `"low"`,
and every severity label is non-negative-threshold, so they merge). -/
theorem calculate_severity_eq (c : ℚ) :
    calculate_severity c =
      if 0.90 ≤ c then "critical"
      else if 0.75 ≤ c then "high"
      else if 0.50 ≤ c then "medium"
      else "low" := by
  unfold calculate_severity SEVERITY_THRESHOLDS
  by_cases h1 : (0.90 : ℚ) ≤ c <;> by_cases h2 : (0.75 : ℚ) ≤ c <;>
    by_cases h3 : (0.50 : ℚ) ≤ c <;> by_cases h4 : (0.0 : ℚ) ≤ c <;>
    simp [List.find?, h1, h2, h3, h4]

/-- C2.  For confidence in `[0, 1]`, `calculate_severity` is `critical`
iff `c ≥ 0.90`, `high` iff `0.75 ≤ c < 0.90`, `medium` iff
`0.50 ≤ c < 0.75` and `low` otherwise (all thresholds inclusive lower
bounds, evaluated highest-first); the stated boundary values hold, and
severity rank is monotone in the confidence. -/
theorem severity_thresholds_correct :
    (∀ c : ℚ, 0 ≤ c → c ≤ 1 →
      ((calculate_severity c = "critical" ↔ 0.90 ≤ c) ∧
       (calculate_severity c = "high" ↔ 0.75 ≤ c ∧ c < 0.90) ∧
       (calculate_severity c = "medium" ↔ 0.50 ≤ c ∧ c < 0.75) ∧
       (calculate_severity c = "low" ↔ c < 0.50))) ∧
    calculate_severity 0.90 = "critical" ∧
    calculate_severity 0.89999 = "high" ∧
    calculate_severity 0.75 = "high" ∧
    calculate_severity 0.50 = "medium" ∧
    calculate_severity 0 = "low" ∧
    (∀ c₁ c₂ : ℚ, c₁ ≤ c₂ →
      severityRank (calculate_severity c₁) ≤ severityRank (calculate_severity c₂)) := by
  refine ⟨?_, by rw [calculate_severity_eq]; norm_num, by rw [calculate_severity_eq]; norm_num,
    by rw [calculate_severity_eq]; norm_num, by rw [calculate_severity_eq]; norm_num,
    by rw [calculate_severity_eq]; norm_num, ?_⟩
  · intro c h0 _
    rw [calculate_severity_eq]
    split_ifs with h1 h2 h3
    · exact ⟨iff_of_true rfl h1,
        iff_of_false (by decide) fun h => absurd h.2 (not_lt.mpr h1),
        iff_of_false (by decide) fun h => absurd h.2 (not_lt.mpr (le_trans (by norm_num) h1)),
        iff_of_false (by decide) (not_lt.mpr (le_trans (by norm_num) h1))⟩
    · exact ⟨iff_of_false (by decide) h1,
        iff_of_true rfl ⟨h2, not_le.mp h1⟩,
        iff_of_false (by decide) fun h => absurd h.2 (not_lt.mpr h2),
        iff_of_false (by decide) (not_lt.mpr (le_trans (by norm_num) h2))⟩
    · exact ⟨iff_of_false (by decide) h1,
        iff_of_false (by decide) fun h => h2 h.1,
        iff_of_true rfl ⟨h3, not_le.mp h2⟩,
        iff_of_false (by decide) (not_lt.mpr h3)⟩
    · exact ⟨iff_of_false (by decide) h1,
        iff_of_false (by decide) fun h => h2 h.1,
        iff_of_false (by decide) fun h => h3 h.1,
        iff_of_true rfl (not_le.mp h3)⟩
  · intro c₁ c₂ hle
    rw [calculate_severity_eq, calculate_severity_eq]
    split_ifs <;> simp [severityRank] <;> linarith

/-- Witness for C2 at concrete confidences. -/
theorem severity_thresholds_correct_witness :
    calculate_severity 0.80 = "high" ∧
    severityRank (calculate_severity 0.60) ≤ severityRank (calculate_severity 0.95) := by
  constructor
  · exact (severity_thresholds_correct.1 0.80 (by norm_num) (by norm_num)).2.1.mpr
      ⟨by norm_num, by norm_num⟩
  · exact severity_thresholds_correct.2.2.2.2.2.2 0.60 0.95 (by norm_num)

/-! ## Boost rules (C7) -/

/-- C7.  The two boost rules apply after the weighted sum and before the
round/clamp: a username score above `0.8` forces the combined confidence
to at least `0.7`, a name score above `0.9` forces it to at least
`0.65`, for every weight map and every component-score combination; and
at the default weights, a username score of `0.85` with every other
component zero yields confidence `≥ 0.70` regardless of the raw weighted
sum (which is only `0.17` there). -/
theorem boost_rules_correct :
    (∀ (w : List (String × ℚ)) (pic bio user content name : ℚ), 0.8 < user →
      0.7 ≤ combineConfidence w pic bio user content name) ∧
    (∀ (w : List (String × ℚ)) (pic bio user content name : ℚ), 0.9 < name →
      0.65 ≤ combineConfidence w pic bio user content name) ∧
    0.7 ≤ combineConfidence DEFAULT_WEIGHTS 0 0 0.85 0 0 := by
  refine ⟨?_, ?_, ?_⟩
  · intro w pic bio user content name h
    simp only [combineConfidence, if_pos h]
    split_ifs with h2
    · exact le_trans (le_max_right _ _) (le_max_left _ _)
    · exact le_max_right _ _
  · intro w pic bio user content name h
    simp only [combineConfidence, if_pos h]
    exact le_max_right _ _
  · unfold combineConfidence wget DEFAULT_WEIGHTS
    norm_num

/-- Witness for C7 at a concrete weight map and component scores. -/
theorem boost_rules_correct_witness :
    0.7 ≤ combineConfidence [] 0 0 1 0 0 ∧
    0.65 ≤ combineConfidence [] 0 0 0 0 1 := by
  exact ⟨boost_rules_correct.1 [] 0 0 1 0 0 (by norm_num),
         boost_rules_correct.2.1 [] 0 0 0 0 1 (by norm_num)⟩

/-! ## Threat-type classification (C6) -/

/-- `s` contains at least one of `terms` as a substring. -/
def containsAnyOf (s : String) (terms : List String) : Bool :=
  terms.any fun t => containsSub s t

/-- The claim's classification rule, written from its wording: over the
lowercased concatenation of snippet and title, (1) any counterfeit-intent
term (buy, shop, order, price, sale, discount, free shipping, cheap,
replica, dupe) → `counterfeit`, regardless of other evidence; (2) else
Profile Data present with non-empty username → `impersonation`; (3) else
a social platform whose text has profile/account/follow/official terms →
`impersonation`; (4) else copy/stolen/repost/credit terms →
`content_theft`; (5) else the query's intended type, defaulting to
`content_theft`. -/
def classifySpecC6 (result : SearchResult) (profile_data : Option ProfileData) : String :=
  let text := lowerStr (result.snippet ++ " " ++ result.title)
  if containsAnyOf text ["buy", "shop", "order", "price", "sale", "discount",
      "free shipping", "cheap", "replica", "dupe"] then "counterfeit"
  else if pdHasUsername profile_data then "impersonation"
  else if decide (result.platform ∈ socialPlatforms) &&
      containsAnyOf text ["profile", "account", "follow", "official"] then "impersonation"
  else if containsAnyOf text ["copy", "stolen", "repost", "credit"] then "content_theft"
  else if result.query_type ≠ "" then result.query_type
  else "content_theft"

/-- C6.  `classify_threat_type` implements exactly the claim's priority
order, and in particular a snippet containing both "buy now" and
"official account" classifies as `counterfeit` even when Profile Data
with a username is present (the counterfeit check precedes the
impersonation checks). -/
theorem classify_threat_type_correct :
    (∀ (result : SearchResult) (profile_data : Option ProfileData),
      classify_threat_type result profile_data = classifySpecC6 result profile_data) ∧
    classify_threat_type
      { url := "https://instagram.com/x_shop", title := "",
        snippet := "buy now from this official account", platform := "instagram",
        query_type := "", brand := "@x" }
      (some { platform := "instagram", username := "x_shop", display_name := "",
              bio := "", follower_count := 0 }) = "counterfeit" := by
  constructor
  · intro result profile_data
    rfl
  · rfl

/-! ## Auto-Resolve Sweeper (C8) -/

/-- C8.  The sweep maps every `new` Threat detected more than 24 hours
before `now` to `resolved` with resolved timestamp `now`; every other
Threat passes through unchanged; no row is added or dropped, and nothing
not of that shape appears in the output; and a store access that raises
(`queryOk = false`) leaves the store untouched instead of propagating. -/
theorem auto_resolve_correct :
    ∀ (now : Int) (db : List SweepThreat),
      (∀ t ∈ db, t.status = "new" → t.detected_at < now - 24 * 3600 →
        { t with status := "resolved", resolved_at := some now } ∈ run_auto_resolve now true db) ∧
      (∀ t ∈ db, t.status ≠ "new" ∨ ¬ t.detected_at < now - 24 * 3600 →
        t ∈ run_auto_resolve now true db) ∧
      (run_auto_resolve now true db).length = db.length ∧
      (∀ t' ∈ run_auto_resolve now true db, t' ∈ db ∨
        ∃ t ∈ db, t.status = "new" ∧ t.detected_at < now - 24 * 3600 ∧
          t' = { t with status := "resolved", resolved_at := some now }) ∧
      run_auto_resolve now false db = db := by
  intro now db
  refine ⟨?_, ?_, ?_, ?_, rfl⟩
  · intro t ht hs hd
    simp only [run_auto_resolve, if_pos rfl]
    exact List.mem_map.mpr ⟨t, ht, by rw [if_pos ⟨hs, hd⟩]⟩
  · intro t ht hcond
    simp only [run_auto_resolve, if_pos rfl]
    refine List.mem_map.mpr ⟨t, ht, ?_⟩
    rw [if_neg]
    rintro ⟨hs, hd⟩
    rcases hcond with h | h
    · exact h hs
    · exact h hd
  · simp [run_auto_resolve]
  · intro t' ht'
    simp only [run_auto_resolve, if_pos rfl] at ht'
    obtain ⟨t, ht, heq⟩ := List.mem_map.mp ht'
    by_cases hc : t.status = "new" ∧ t.detected_at < now - 24 * 3600
    · right
      exact ⟨t, ht, hc.1, hc.2, by rw [← heq, if_pos hc]⟩
    · left
      rwa [← heq, if_neg hc]

/-- Witness for C8: the spec's scenario — with `now` = 30 h, a `new`
Threat detected at time 0 (30 hours ago) is resolved, while a `new`
Threat detected 1 hour ago passes through untouched. -/
theorem auto_resolve_correct_witness :
    ({ status := "resolved", detected_at := 0, resolved_at := some 108000 } : SweepThreat) ∈
      run_auto_resolve 108000 true
        [{ status := "new", detected_at := 0, resolved_at := none },
         { status := "new", detected_at := 104400, resolved_at := none }] ∧
    ({ status := "new", detected_at := 104400, resolved_at := none } : SweepThreat) ∈
      run_auto_resolve 108000 true
        [{ status := "new", detected_at := 0, resolved_at := none },
         { status := "new", detected_at := 104400, resolved_at := none }] := by
  constructor
  · exact (auto_resolve_correct 108000 _).1
      { status := "new", detected_at := 0, resolved_at := none }
      (by simp) rfl (by norm_num)
  · exact (auto_resolve_correct 108000 _).2.1
      { status := "new", detected_at := 104400, resolved_at := none }
      (by simp) (Or.inr (by norm_num))

/-! ## Scheduler toggle (C9) -/

/-- C9 evidence.  `enable_scanning`/`disable_scanning` do only flip the
flag, but the scheduled-scan callback is *not* a pure log-and-return
no-op while disabled: as written its body is an `IndentationError`, and
under the charitable re-indentation its disabled branch registers the
`brand_shield_auto_resolve` job, mutating the scheduler's job set (shown
here on the state holding exactly the two jobs `init_scheduler`
registers). -/
theorem scheduled_scan_disabled_not_noop :
    (∀ st : SchedulerState,
      enable_scanning st = { st with is_enabled := true } ∧
      disable_scanning st = { st with is_enabled := false }) ∧
    (run_scheduled_scan_effect
        { jobs := ["brand_shield_scan", "brand_shield_weekly_report"], is_enabled := false }).jobs
      ≠ ["brand_shield_scan", "brand_shield_weekly_report"] := by
  exact ⟨fun st => ⟨rfl, rfl⟩, by decide⟩

/-! ## Query Planner exclusions (C5) -/

/-- A brand configuration with a verified URL and an official handle, so
the exclusion clause is non-empty. -/
def c5Config : BrandConfig :=
  { display_name := "ByErim"
    platform_handles := [("instagram", "byerim")]
    verified_urls := ["https://www.byerim.com/"]
    keywords := []
    bio_phrases := []
    product_names := [] }

/-- C5 evidence.  Even with a non-empty exclusion clause (built from the
verified URL's domain and the instagram handle), `build_search_queries`
emits the scam/fake-detection query with no `-site:` exclusion at all:
exactly one of the three emitted queries carries no exclusion, so not
every query carries the exclusion clause. -/
theorem scam_query_omits_exclusions :
    buildExclusions c5Config = " -site:www.byerim.com -site:instagram.com/byerim" ∧
    (build_search_queries "@byerim" c5Config).length = 3 ∧
    ((build_search_queries "@byerim" c5Config).filter
        fun qi => !containsSub qi.q "-site:").length = 1 ∧
    (build_search_queries "@byerim" c5Config).get? 2 = some
      { q := "\"ByErim\" OR \"@byerim\" (fake OR scam OR unofficial OR replica)",
        qtype := "content_theft", brand := "@byerim" } := by
  refine ⟨rfl, rfl, ?_, rfl⟩
  decide

/-! ## Brand-filter resolution (C10) -/

/-- C10.  A truthy brand filter that is not a configured key and does not
start with `@` is retried with `@` prepended: when the prefixed key is
configured, exactly that brand is scanned; only when both lookups miss
does the scan fail — the record is finalised `failed` with the
`Unknown brand` message and zero counters. -/
theorem brand_filter_at_retry :
    ∀ (brands : List (String × BrandConfig)) (b : String)
      (f : String → BrandConfig → Except String (Nat × Nat)) (platform : Option String),
      b ≠ "" → lookupBrand brands b = none → strStartsWith b "@" = false →
      (∀ cfg, lookupBrand brands ("@" ++ b) = some cfg →
        resolveBrands brands (some b) = Except.ok [("@" ++ b, cfg)]) ∧
      (lookupBrand brands ("@" ++ b) = none →
        resolveBrands brands (some b) = Except.error ("Unknown brand: " ++ b) ∧
        ∃ rec0 : ScanRecordRow,
          (run_full_scan f brands (some b) platform).1 =
            [rec0,
             { rec0 with
                status := "failed",
                error_message := some ("Unknown brand: " ++ b) }] ∧
          rec0.status = "running") := by
  intro brands b f platform hb hmiss hat
  have hres : ∀ o, lookupBrand brands ("@" ++ b) = o →
      resolveBrands brands (some b) =
        (match o with
         | some cfg => Except.ok [("@" ++ b, cfg)]
         | none => Except.error ("Unknown brand: " ++ b)) := by
    intro o ho
    simp only [resolveBrands, if_pos hb, hmiss, hat, Bool.false_eq_true, if_false, ho]
  constructor
  · intro cfg hhit
    exact hres (some cfg) hhit
  · intro hmiss2
    refine ⟨hres none hmiss2, ?_⟩
    refine ⟨{ scan_type := if optTruthy (some b) && optTruthy platform then "platform_scan"
                           else if optTruthy (some b) then "brand_scan" else "full_scan",
              brand := some b, platform := platform, status := "running",
              items_scanned := 0, threats_found := 0, error_message := none }, ?_, rfl⟩
    unfold run_full_scan
    rw [hres none hmiss2]

/-- A minimal brand configuration used in concrete instantiations. -/
def emptyConfig : BrandConfig :=
  { display_name := "", platform_handles := [], verified_urls := [], keywords := [],
    bio_phrases := [], product_names := [] }

/-- Witness for C10: the filter `"x"` misses, `"@x"` hits and is scanned;
against a configuration holding only `"@y"`, both lookups miss and the
unknown-brand error is raised. -/
theorem brand_filter_at_retry_witness :
    resolveBrands [("@x", emptyConfig)] (some "x") = Except.ok [("@x", emptyConfig)] ∧
    resolveBrands [("@y", emptyConfig)] (some "x") = Except.error ("Unknown brand: " ++ "x") := by
  constructor
  · exact (brand_filter_at_retry [("@x", emptyConfig)] "x" (fun _ _ => Except.ok (0, 0)) none
      (by decide) (by decide) (by decide)).1 emptyConfig (by decide)
  · exact ((brand_filter_at_retry [("@y", emptyConfig)] "x" (fun _ _ => Except.ok (0, 0)) none
      (by decide) (by decide) (by decide)).2 (by decide)).1

/-! ## Scan Record lifecycle (C4) -/

/-- The running totals factor out of `scanLoop`. -/
theorem scanLoop_shift (f : String → BrandConfig → Except String (Nat × Nat))
    (bs : List (String × BrandConfig)) : ∀ ti tt,
    scanLoop f bs ti tt =
      ((scanLoop f bs 0 0).1 + ti, (scanLoop f bs 0 0).2.1 + tt, (scanLoop f bs 0 0).2.2) := by
  induction bs with
  | nil => intro ti tt; simp [scanLoop]
  | cons b rest ih =>
    intro ti tt
    obtain ⟨k, cfg⟩ := b
    simp only [scanLoop]
    cases hf : f k cfg with
    | error e => simp
    | ok p =>
      obtain ⟨i, t⟩ := p
      dsimp only
      rw [ih (ti + i) (tt + t), ih (0 + i) (0 + t)]
      dsimp only
      refine congrArg₂ Prod.mk (by omega) (congrArg₂ Prod.mk (by omega) rfl)

/-- A brand whose scan raises aborts the loop with the counters
accumulated over the successful prefix and the exception's message. -/
theorem scanLoop_abort (f : String → BrandConfig → Except String (Nat × Nat)) :
    ∀ (bs1 : List (String × BrandConfig)) (k : String) (cfg : BrandConfig)
      (bs2 : List (String × BrandConfig)) (e : String) (items threats ti tt : Nat),
      scanLoop f bs1 ti tt = (items, threats, none) → f k cfg = Except.error e →
      scanLoop f (bs1 ++ (k, cfg) :: bs2) ti tt = (items, threats, some e) := by
  intro bs1
  induction bs1 with
  | nil =>
    intro k cfg bs2 e items threats ti tt h1 hf
    simp only [scanLoop, Prod.mk.injEq] at h1
    obtain ⟨rfl, rfl, -⟩ := h1
    simp only [List.nil_append, scanLoop, hf]
  | cons b rest ih =>
    intro k cfg bs2 e items threats ti tt h1 hf
    obtain ⟨k0, cfg0⟩ := b
    simp only [scanLoop] at h1 ⊢
    cases hf0 : f k0 cfg0 with
    | error e0 => rw [hf0] at h1; simp at h1
    | ok p =>
      obtain ⟨i, t⟩ := p
      rw [hf0] at h1
      dsimp only at h1
      simp only [hf0]
      exact ih k cfg bs2 e items threats (ti + i) (tt + t) h1 hf

/-- C4.  `run_full_scan` is total (no exception reaches the caller) and
persists exactly two record versions: the initial `running` one and a
single terminal update — `completed` with the loop's totals when every
brand succeeded, `failed` with the exception message and the partial
counters when a brand raised (or the brand filter was unknown, with zero
counters); an exception aborts the remaining brands; and a scan over
zero configured brands completes with zero items and threats. -/
theorem full_scan_lifecycle :
    ∀ (f : String → BrandConfig → Except String (Nat × Nat))
      (brands : List (String × BrandConfig)) (brand platform : Option String),
      (run_full_scan f brands brand platform).1.length = 2 ∧
      ((run_full_scan f brands brand platform).1.get? 0).map ScanRecordRow.status =
        some "running" ∧
      (∀ final, (run_full_scan f brands brand platform).1.get? 1 = some final →
        ((final.status = "completed" ∧ final.error_message = none) ∨
         (final.status = "failed" ∧ final.error_message.isSome = true)) ∧
        (∀ bs, resolveBrands brands brand = Except.ok bs →
          final.items_scanned = (scanLoop f bs 0 0).1 ∧
          final.threats_found = (scanLoop f bs 0 0).2.1 ∧
          final.error_message = (scanLoop f bs 0 0).2.2 ∧
          final.status =
            if (scanLoop f bs 0 0).2.2.isSome then "failed" else "completed") ∧
        (∀ e, resolveBrands brands brand = Except.error e →
          final.status = "failed" ∧ final.error_message = some e ∧
          final.items_scanned = 0 ∧ final.threats_found = 0)) ∧
      (∀ bs1 k cfg bs2 e items threats,
        scanLoop f bs1 0 0 = (items, threats, none) → f k cfg = Except.error e →
        scanLoop f (bs1 ++ (k, cfg) :: bs2) 0 0 = (items, threats, some e)) ∧
      (run_full_scan f [] none none).1.get? 1 = some
        { scan_type := "full_scan", brand := none, platform := none, status := "completed",
          items_scanned := 0, threats_found := 0, error_message := none } := by
  intro f brands brand platform
  refine ⟨?_, ?_, ?_, fun bs1 k cfg bs2 e items threats h1 hf =>
    scanLoop_abort f bs1 k cfg bs2 e items threats 0 0 h1 hf, rfl⟩
  · unfold run_full_scan
    cases hres : resolveBrands brands brand with
    | error e => rfl
    | ok bs => rfl
  · unfold run_full_scan
    cases hres : resolveBrands brands brand with
    | error e => rfl
    | ok bs => rfl
  · intro final hfinal
    unfold run_full_scan at hfinal
    cases hres : resolveBrands brands brand with
    | error e =>
      rw [hres] at hfinal
      simp only [List.get?] at hfinal
      obtain rfl := Option.some.inj hfinal
      refine ⟨Or.inr ⟨rfl, rfl⟩, ?_, ?_⟩
      · intro bs hok; simp at hok
      · intro e' herr
        obtain rfl := Except.error.inj herr
        exact ⟨rfl, rfl, rfl, rfl⟩
    | ok bs =>
      rw [hres] at hfinal
      dsimp only at hfinal
      rcases hL : scanLoop f bs 0 0 with ⟨ti, tt, err⟩
      rw [hL] at hfinal
      dsimp only at hfinal
      simp only [List.get?] at hfinal
      obtain rfl := Option.some.inj hfinal
      refine ⟨?_, ?_, ?_⟩
      · cases err with
        | none => exact Or.inl ⟨rfl, rfl⟩
        | some e => exact Or.inr ⟨rfl, rfl⟩
      · intro bs' hok
        obtain rfl := Except.ok.inj hok
        rw [hL]
        exact ⟨rfl, rfl, rfl, rfl⟩
      · intro e herr; simp at herr

/-- Witness for C4: one configured brand whose scan returns
`(2 items, 1 threat)` — the terminal record is `completed` with those
totals and no error message. -/
theorem full_scan_lifecycle_witness :
    ((⟨"full_scan", none, none, "completed", 2, 1, none⟩ : ScanRecordRow).status = "completed" ∧
      (⟨"full_scan", none, none, "completed", 2, 1, none⟩ : ScanRecordRow).error_message = none) ∨
    ((⟨"full_scan", none, none, "completed", 2, 1, none⟩ : ScanRecordRow).status = "failed" ∧
      (⟨"full_scan", none, none, "completed", 2, 1, none⟩ :
        ScanRecordRow).error_message.isSome = true) := by
  exact ((full_scan_lifecycle (fun _ _ => Except.ok (2, 1)) [("@x", emptyConfig)]
    none none).2.2.1 ⟨"full_scan", none, none, "completed", 2, 1, none⟩ (by decide)).1

/-! ## The per-result loop (C1, C3) -/

section ScanLoopLemmas

variable (fetch : String → Option ProfileData) (weights : Option (List (String × ℚ)))
variable (now brand_key : String) (cfg : BrandConfig)

/-- Complete case analysis of one loop iteration: a tracked URL is
skipped outright (state unchanged, no events); an untracked URL below
the threat floor is scored but persists nothing; an untracked URL at or
above the floor appends exactly one Threat row (whose detected URL is
the candidate's) and at most suspect rows whose profile URL is the
candidate's. -/
theorem processResult_cases (st : ScanState) (r : SearchResult) :
    (url_already_tracked st r.url = true ∧
      processResult fetch weights now brand_key cfg st r = (st, [], 0)) ∨
    (url_already_tracked st r.url = false ∧
      ¬ MIN_THREAT_CONFIDENCE ≤ scanConf fetch weights brand_key cfg r ∧
      processResult fetch weights now brand_key cfg st r =
        (st, (if r.platform ∈ socialPlatforms then [ScanEvent.fetched r.url] else []) ++
          [ScanEvent.scored r.url], 0)) ∨
    (url_already_tracked st r.url = false ∧
      MIN_THREAT_CONFIDENCE ≤ scanConf fetch weights brand_key cfg r ∧
      ∃ ss : List SuspectRow,
        (∀ s ∈ ss, s.profile_url = r.url) ∧
        (processResult fetch weights now brand_key cfg st r).1 =
          ⟨st.threats ++ [mkThreatRow now brand_key r (scanScore fetch weights brand_key cfg r)
              (scanProfile fetch r)],
            st.suspects ++ ss⟩ ∧
        (processResult fetch weights now brand_key cfg st r).2.2 = 1) := by
  by_cases h : url_already_tracked st r.url
  · exact Or.inl ⟨h, by simp [processResult, h]⟩
  · rw [Bool.not_eq_true] at h
    by_cases hc : MIN_THREAT_CONFIDENCE ≤ scanConf fetch weights brand_key cfg r
    · refine Or.inr (Or.inr ⟨h, hc, ?_⟩)
      unfold scanConf at hc
      cases hpd : scanProfile fetch r with
      | none =>
        refine ⟨[], by simp, ?_, ?_⟩ <;>
          simp [processResult, h, hc, hpd]
      | some pd =>
        by_cases hsusp : (scanScore fetch weights brand_key cfg r).threat_type = "impersonation" ∧
            MIN_SUSPECT_CONFIDENCE ≤ (scanScore fetch weights brand_key cfg r).confidence ∧
            pd.username ≠ ""
        · refine ⟨[mkSuspectRow now brand_key r (scanScore fetch weights brand_key cfg r) pd],
            by simp [mkSuspectRow], ?_, ?_⟩ <;>
            simp [processResult, h, hc, hpd, hsusp]
        · refine ⟨[], by simp, ?_, ?_⟩ <;>
            simp [processResult, h, hc, hpd, hsusp]
    · refine Or.inr (Or.inl ⟨h, hc, ?_⟩)
      unfold scanConf at hc
      simp [processResult, h, hc]

/-- A URL already tracked stays tracked across one iteration. -/
theorem tracked_mono (st : ScanState) (r : SearchResult) (u : String)
    (h : url_already_tracked st u = true) :
    url_already_tracked (processState fetch weights now brand_key cfg st r) u = true := by
  rcases processResult_cases fetch weights now brand_key cfg st r with
    ⟨-, heq⟩ | ⟨-, -, heq⟩ | ⟨-, -, ss, -, heq, -⟩
  · unfold processState; rw [heq]; exact h
  · unfold processState; rw [heq]; exact h
  · unfold processState
    rw [heq]
    simp only [url_already_tracked, List.any_append, Bool.or_eq_true] at h ⊢
    tauto

/-- One iteration neither tracks nor un-tracks a different URL. -/
theorem tracked_ne (st : ScanState) (r : SearchResult) (u : String) (hne : u ≠ r.url) :
    url_already_tracked (processState fetch weights now brand_key cfg st r) u =
      url_already_tracked st u := by
  rcases processResult_cases fetch weights now brand_key cfg st r with
    ⟨-, heq⟩ | ⟨-, -, heq⟩ | ⟨-, -, ss, hss, heq, -⟩
  · unfold processState; rw [heq]
  · unfold processState; rw [heq]
  · unfold processState
    rw [heq]
    simp only [url_already_tracked, List.any_append]
    have h1 : [mkThreatRow now brand_key r (scanScore fetch weights brand_key cfg r)
        (scanProfile fetch r)].any (fun t => t.detected_url == u) = false := by
      simp [mkThreatRow, Ne.symm hne]
    have h2 : ss.any (fun s => s.profile_url == u) = false := by
      rw [List.any_eq_false]
      intro s hs
      simp [hss s hs, Ne.symm hne]
    rw [h1, h2, Bool.or_false, Bool.or_false]

/-- One iteration does not change the Threat count of a different URL. -/
theorem countUrl_ne (st : ScanState) (r : SearchResult) (u : String) (hne : u ≠ r.url) :
    countUrl (processState fetch weights now brand_key cfg st r) u = countUrl st u := by
  rcases processResult_cases fetch weights now brand_key cfg st r with
    ⟨-, heq⟩ | ⟨-, -, heq⟩ | ⟨-, -, ss, -, heq, -⟩
  · unfold processState; rw [heq]
  · unfold processState; rw [heq]
  · unfold processState
    rw [heq]
    simp [countUrl, List.filter_append, mkThreatRow, Ne.symm hne]

/-- On an untracked URL, one iteration adds exactly one Threat for that
URL when its confidence reaches the floor, and none otherwise. -/
theorem countUrl_self (st : ScanState) (r : SearchResult)
    (h : url_already_tracked st r.url = false) :
    countUrl (processState fetch weights now brand_key cfg st r) r.url =
      countUrl st r.url +
        (if MIN_THREAT_CONFIDENCE ≤ scanConf fetch weights brand_key cfg r then 1 else 0) := by
  rcases processResult_cases fetch weights now brand_key cfg st r with
    ⟨htr, -⟩ | ⟨-, hc, heq⟩ | ⟨-, hc, ss, -, heq, -⟩
  · rw [h] at htr; cases htr
  · unfold processState; rw [heq, if_neg hc]; simp
  · unfold processState
    rw [heq, if_pos hc]
    simp [countUrl, List.filter_append, mkThreatRow]

/-- A tracked or below-floor candidate leaves the store unchanged. -/
theorem processState_noop (st : ScanState) (r : SearchResult)
    (h : url_already_tracked st r.url = true ∨
      ¬ MIN_THREAT_CONFIDENCE ≤ scanConf fetch weights brand_key cfg r) :
    processState fetch weights now brand_key cfg st r = st := by
  rcases processResult_cases fetch weights now brand_key cfg st r with
    ⟨-, heq⟩ | ⟨-, -, heq⟩ | ⟨htr, hc, -⟩
  · unfold processState; rw [heq]
  · unfold processState; rw [heq]
  · rcases h with h | h
    · rw [htr] at h; cases h
    · exact absurd hc h

/-- An untracked URL has no Threat row. -/
theorem countUrl_zero (st : ScanState) (u : String)
    (h : url_already_tracked st u = false) : countUrl st u = 0 := by
  unfold url_already_tracked at h
  rw [Bool.or_eq_false_iff] at h
  unfold countUrl
  rw [List.length_eq_zero, List.filter_eq_nil_iff]
  intro t ht hc
  have := List.any_eq_false.mp h.1 t ht
  simp at this hc
  exact this hc

theorem scanFold_cons (st : ScanState) (r : SearchResult) (rs : List SearchResult) :
    scanFold fetch weights now brand_key cfg st (r :: rs) =
      scanFold fetch weights now brand_key cfg
        (processState fetch weights now brand_key cfg st r) rs := rfl

/-- Tracking is monotone across the whole loop. -/
theorem tracked_fold_mono (rs : List SearchResult) : ∀ (st : ScanState) (u : String),
    url_already_tracked st u = true →
    url_already_tracked (scanFold fetch weights now brand_key cfg st rs) u = true := by
  induction rs with
  | nil => intro st u h; exact h
  | cons r rest ih =>
    intro st u h
    rw [scanFold_cons]
    exact ih _ u (tracked_mono fetch weights now brand_key cfg st r u h)

/-- The loop leaves the tracking status of URLs outside it unchanged. -/
theorem tracked_fold_ne (rs : List SearchResult) : ∀ (st : ScanState) (u : String),
    (∀ r ∈ rs, u ≠ r.url) →
    url_already_tracked (scanFold fetch weights now brand_key cfg st rs) u =
      url_already_tracked st u := by
  induction rs with
  | nil => intro st u _; rfl
  | cons r rest ih =>
    intro st u h
    rw [scanFold_cons, ih _ u fun r' hr' => h r' (List.mem_cons_of_mem r hr'),
      tracked_ne fetch weights now brand_key cfg st r u (h r (List.mem_cons_self r rest))]

/-- The loop leaves the Threat count of URLs outside it unchanged. -/
theorem countUrl_fold_ne (rs : List SearchResult) : ∀ (st : ScanState) (u : String),
    (∀ r ∈ rs, u ≠ r.url) →
    countUrl (scanFold fetch weights now brand_key cfg st rs) u = countUrl st u := by
  induction rs with
  | nil => intro st u _; rfl
  | cons r rest ih =>
    intro st u h
    rw [scanFold_cons, ih _ u fun r' hr' => h r' (List.mem_cons_of_mem r hr'),
      countUrl_ne fetch weights now brand_key cfg st r u (h r (List.mem_cons_self r rest))]

/-- After the loop, every processed candidate is either tracked or below
the threat floor. -/
theorem scanFold_covers (rs : List SearchResult) : ∀ (st : ScanState), ∀ r ∈ rs,
    url_already_tracked (scanFold fetch weights now brand_key cfg st rs) r.url = true ∨
    ¬ MIN_THREAT_CONFIDENCE ≤ scanConf fetch weights brand_key cfg r := by
  induction rs with
  | nil => intro st r h; cases h
  | cons r0 rest ih =>
    intro st r hmem
    rw [scanFold_cons]
    rcases List.mem_cons.mp hmem with rfl | hr
    · by_cases hc : MIN_THREAT_CONFIDENCE ≤ scanConf fetch weights brand_key cfg r
      · left
        apply tracked_fold_mono
        rcases processResult_cases fetch weights now brand_key cfg st r with
          ⟨htr, heq⟩ | ⟨-, hc', -⟩ | ⟨-, -, ss, -, heq, -⟩
        · unfold processState; rw [heq]; exact htr
        · exact absurd hc hc'
        · unfold processState
          rw [heq]
          simp [url_already_tracked, List.any_append, mkThreatRow]
      · exact Or.inr hc
    · exact ih _ r hr

/-- A loop whose every candidate fixes the store fixes the store. -/
theorem scanFold_noop (rs : List SearchResult) : ∀ (st : ScanState),
    (∀ r ∈ rs, processState fetch weights now brand_key cfg st r = st) →
    scanFold fetch weights now brand_key cfg st rs = st := by
  induction rs with
  | nil => intro st _; rfl
  | cons r rest ih =>
    intro st h
    rw [scanFold_cons, h r (List.mem_cons_self r rest)]
    exact ih st fun r' hr' => h r' (List.mem_cons_of_mem r hr')

/-- Re-running the loop on an unchanged result set changes nothing: every
URL that produced a Threat is now tracked and skipped, and every other
URL re-scores below the floor. -/
theorem scanFold_idem (now₂ : String) (st : ScanState) (rs : List SearchResult) :
    scanFold fetch weights now₂ brand_key cfg
        (scanFold fetch weights now brand_key cfg st rs) rs =
      scanFold fetch weights now brand_key cfg st rs := by
  apply scanFold_noop
  intro r hr
  apply processState_noop
  exact scanFold_covers fetch weights now brand_key cfg rs st r hr

/-- With pairwise-distinct, initially-untracked URLs, the loop persists
exactly one Threat per qualifying URL (and none otherwise). -/
theorem scanFold_count (rs : List SearchResult) : ∀ (st : ScanState),
    rs.Pairwise (fun a b => a.url ≠ b.url) →
    (∀ r ∈ rs, url_already_tracked st r.url = false) →
    ∀ r ∈ rs, countUrl (scanFold fetch weights now brand_key cfg st rs) r.url =
      if MIN_THREAT_CONFIDENCE ≤ scanConf fetch weights brand_key cfg r then 1 else 0 := by
  induction rs with
  | nil => intro st _ _ r h; cases h
  | cons r0 rest ih =>
    intro st hpw huntr r hmem
    rw [scanFold_cons]
    have hpw' := List.pairwise_cons.mp hpw
    rcases List.mem_cons.mp hmem with rfl | hr
    · have h0 : url_already_tracked st r.url = false := huntr r (List.mem_cons_self r rest)
      rw [countUrl_fold_ne fetch weights now brand_key cfg rest _ r.url
          fun r' hr' => hpw'.1 r' hr',
        countUrl_self fetch weights now brand_key cfg st r h0,
        countUrl_zero st r.url h0, Nat.zero_add]
    · have hne : ∀ r' ∈ rest, r'.url ≠ r0.url := fun r' hr' => (hpw'.1 r' hr').symm
      refine ih _ hpw'.2 ?_ r hr
      intro r' hr'
      rw [tracked_ne fetch weights now brand_key cfg st r0 r'.url (hne r' hr')]
      exact huntr r' (List.mem_cons_of_mem r0 hr')

end ScanLoopLemmas

/-- C1.  A candidate URL already persisted as a Threat's detected URL or
a Suspicious Account's profile URL is skipped entirely by the per-result
loop — no enrichment, no scoring, no persistence, no events; re-running
the whole loop against an unchanged result set is a no-op on the store;
and over pairwise-distinct, initially-untracked URLs, two runs persist
exactly one Threat per URL whose confidence reaches the floor (and none
for the others). -/
theorem dedup_skip_and_idempotent :
    ∀ (fetch : String → Option ProfileData) (weights : Option (List (String × ℚ)))
      (now now₂ brand_key : String) (cfg : BrandConfig),
      (∀ (st : ScanState) (r : SearchResult), url_already_tracked st r.url = true →
        processResult fetch weights now brand_key cfg st r = (st, [], 0)) ∧
      (∀ (st : ScanState) (rs : List SearchResult),
        scanFold fetch weights now₂ brand_key cfg
            (scanFold fetch weights now brand_key cfg st rs) rs =
          scanFold fetch weights now brand_key cfg st rs) ∧
      (∀ (st : ScanState) (rs : List SearchResult),
        rs.Pairwise (fun a b => a.url ≠ b.url) →
        (∀ r ∈ rs, url_already_tracked st r.url = false) →
        ∀ r ∈ rs,
          countUrl (scanFold fetch weights now₂ brand_key cfg
              (scanFold fetch weights now brand_key cfg st rs) rs) r.url =
            if MIN_THREAT_CONFIDENCE ≤ scanConf fetch weights brand_key cfg r then 1
            else 0) := by
  intro fetch weights now now₂ brand_key cfg
  refine ⟨?_, scanFold_idem fetch weights now brand_key cfg now₂, ?_⟩
  · intro st r h
    rcases processResult_cases fetch weights now brand_key cfg st r with
      ⟨-, heq⟩ | ⟨htr, -, -⟩ | ⟨htr, -, -⟩
    · exact heq
    · rw [h] at htr; cases htr
    · rw [h] at htr; cases htr
  · intro st rs hpw huntr r hr
    rw [scanFold_idem fetch weights now brand_key cfg now₂ st rs]
    exact scanFold_count fetch weights now brand_key cfg rs st hpw huntr r hr

/-- A candidate used by the loop witnesses. -/
def wResult : SearchResult :=
  { url := "https://example.com/seller", title := "", snippet := "", platform := "web",
    query_type := "", brand := "@x" }

/-- A store that already tracks `wResult`'s URL as a Threat. -/
def wTracked : ScanState :=
  ⟨[{ brand := "@x", threat_type := "content_theft", severity := "low", platform := "web",
      detected_url := "https://example.com/seller", infringer_username := "seller",
      confidence := 0, evidence := ⟨0, 0, 0, 0, 0⟩, status := "new", detected_at := "t0" }], []⟩

section ConcreteEval

attribute [local semireducible] Rat.ofScientific Rat.add Rat.mul Rat.sub Rat.inv

/-- Witness for C1: the tracked URL is skipped with no events, and two
runs over a fresh single-candidate result set leave zero Threats for the
below-floor URL. -/
theorem dedup_skip_and_idempotent_witness :
    processResult (fun _ => none) none "t1" "@x" emptyConfig wTracked wResult =
      (wTracked, [], 0) ∧
    countUrl (scanFold (fun _ => none) none "t2" "@x" emptyConfig
        (scanFold (fun _ => none) none "t1" "@x" emptyConfig ⟨[], []⟩ [wResult]) [wResult])
      wResult.url = 0 := by
  have h := dedup_skip_and_idempotent (fun _ => none) none "t1" "t2" "@x" emptyConfig
  constructor
  · exact h.1 wTracked wResult (by decide)
  · rw [h.2.2 ⟨[], []⟩ [wResult] (by simp) (by decide) wResult (by simp)]
    decide

end ConcreteEval

/-- C3.  For an untracked candidate, the loop persists a Threat row iff
the scored confidence reaches `MIN_THREAT_CONFIDENCE` (0.35), and it
persists an additional Suspicious Account row iff a Threat was persisted
and the threat type is `impersonation` and the confidence reaches
`MIN_SUSPECT_CONFIDENCE` (0.50) and Profile Data is present with a
non-empty username; at most one row is appended to either table. -/
theorem threat_and_suspect_conditions :
    ∀ (fetch : String → Option ProfileData) (weights : Option (List (String × ℚ)))
      (now brand_key : String) (cfg : BrandConfig) (st : ScanState) (r : SearchResult),
      url_already_tracked st r.url = false →
      ((processState fetch weights now brand_key cfg st r).threats.length =
          st.threats.length + 1 ∨
        (processState fetch weights now brand_key cfg st r).threats.length =
          st.threats.length) ∧
      ((processState fetch weights now brand_key cfg st r).threats.length =
          st.threats.length + 1 ↔
        MIN_THREAT_CONFIDENCE ≤ scanConf fetch weights brand_key cfg r) ∧
      ((processState fetch weights now brand_key cfg st r).suspects.length =
          st.suspects.length + 1 ∨
        (processState fetch weights now brand_key cfg st r).suspects.length =
          st.suspects.length) ∧
      ((processState fetch weights now brand_key cfg st r).suspects.length =
          st.suspects.length + 1 ↔
        (MIN_THREAT_CONFIDENCE ≤ scanConf fetch weights brand_key cfg r ∧
         (scanScore fetch weights brand_key cfg r).threat_type = "impersonation" ∧
         MIN_SUSPECT_CONFIDENCE ≤ (scanScore fetch weights brand_key cfg r).confidence ∧
         pdHasUsername (scanProfile fetch r) = true)) := by
  intro fetch weights now brand_key cfg st r h
  by_cases hc : MIN_THREAT_CONFIDENCE ≤ scanConf fetch weights brand_key cfg r
  · have hc' : MIN_THREAT_CONFIDENCE ≤ (scanScore fetch weights brand_key cfg r).confidence := hc
    cases hpd : scanProfile fetch r with
    | none =>
      have : processState fetch weights now brand_key cfg st r =
          ⟨st.threats ++ [mkThreatRow now brand_key r (scanScore fetch weights brand_key cfg r)
            (scanProfile fetch r)], st.suspects⟩ := by
        unfold processState processResult
        simp [h, hc', hpd]
      rw [this]
      refine ⟨Or.inl (by simp), by simp [hc], Or.inr rfl, ?_⟩
      simp [hpd, pdHasUsername]
    | some pd =>
      by_cases hsusp : (scanScore fetch weights brand_key cfg r).threat_type = "impersonation" ∧
          MIN_SUSPECT_CONFIDENCE ≤ (scanScore fetch weights brand_key cfg r).confidence ∧
          pd.username ≠ ""
      · have : processState fetch weights now brand_key cfg st r =
            ⟨st.threats ++ [mkThreatRow now brand_key r (scanScore fetch weights brand_key cfg r)
              (scanProfile fetch r)],
             st.suspects ++ [mkSuspectRow now brand_key r
              (scanScore fetch weights brand_key cfg r) pd]⟩ := by
          unfold processState processResult
          simp [h, hc', hpd, hsusp]
        rw [this]
        refine ⟨Or.inl (by simp), by simp [hc], Or.inl (by simp), ?_⟩
        simp only [List.length_append, List.length_cons, List.length_nil, Nat.zero_add,
          true_iff, hpd, pdHasUsername]
        exact ⟨hc, hsusp.1, hsusp.2.1, by simpa using hsusp.2.2⟩
      · have : processState fetch weights now brand_key cfg st r =
            ⟨st.threats ++ [mkThreatRow now brand_key r (scanScore fetch weights brand_key cfg r)
              (scanProfile fetch r)], st.suspects⟩ := by
          unfold processState processResult
          simp [h, hc', hpd, hsusp]
        rw [this]
        refine ⟨Or.inl (by simp), by simp [hc], Or.inr rfl, ?_⟩
        simp only [hpd, pdHasUsername]
        constructor
        · intro hlen; omega
        · rintro ⟨-, h1, h2, h3⟩
          exact absurd ⟨h1, h2, by simpa using h3⟩ hsusp
  · have hc' : ¬ MIN_THREAT_CONFIDENCE ≤ (scanScore fetch weights brand_key cfg r).confidence := hc
    have : processState fetch weights now brand_key cfg st r = st := by
      unfold processState processResult
      simp [h, hc']
    rw [this]
    refine ⟨Or.inr rfl, by simp [hc], Or.inr rfl, ?_⟩
    constructor
    · intro hlen; omega
    · rintro ⟨h1, -⟩
      exact absurd h1 hc

/-- A brand configuration whose display name is matched exactly by the
witness candidate's title (name score 0.95, boosted confidence 0.65). -/
def wNameConfig : BrandConfig :=
  { display_name := "a", platform_handles := [], verified_urls := [], keywords := [],
    bio_phrases := [], product_names := [] }

/-- A non-social candidate whose title equals the configured display
name. -/
def wNameResult : SearchResult :=
  { url := "u1", title := "a", snippet := "", platform := "web", query_type := "",
    brand := "@x" }

section ConcreteEvalC3

attribute [local semireducible] Rat.ofScientific Rat.add Rat.mul Rat.sub Rat.inv

/-- Witness for C3: the exact-name candidate scores 0.65 ≥ 0.35, so one
Threat row is persisted, and no Suspicious Account is (its threat type
is `content_theft`, not `impersonation`). -/
theorem threat_and_suspect_conditions_witness :
    (processState (fun _ => none) none "t1" "@x" wNameConfig ⟨[], []⟩ wNameResult).threats.length
      = 0 + 1 ∧
    (processState (fun _ => none) none "t1" "@x" wNameConfig ⟨[], []⟩
      wNameResult).suspects.length = 0 := by
  have h := threat_and_suspect_conditions (fun _ => none) none "t1" "@x" wNameConfig
    ⟨[], []⟩ wNameResult (by decide)
  constructor
  · exact h.2.1.mpr (by decide)
  · rcases h.2.2.1 with h' | h'
    · exact absurd (h.2.2.2.mp h') (by decide)
    · simpa using h'

end ConcreteEvalC3

end BrandShield
